import Mathlib

/-!
Verification of the ProductSpyderScrapingExtension job-coordination layer.

Two transport variants are embedded from the source:
  - the local-browser variant (src/app.py): FastAPI handlers extract
    (POST /fetch) and screenshot (POST /screenshot) driving a single shared
    zendriver browser, and
  - the remote-worker variant (src/server/app.py): Flask handlers
    extract_data (POST /fetch) and capture_screenshot (POST /screenshot)
    fanning jobs out over websocket worker channels with a queue-per-request
    correlation table, plus the websocket receive loop echo.

Awaited external calls (browser navigation, script evaluation, websocket
sends, image decoding) are modelled by explicit outcome parameters of type
Except String α: .ok is a normal return, .error is a raised exception whose
message is carried as a string.
-/

namespace PSpy

deriving instance DecidableEq for Except

/-- Outcome of one awaited external call: normal return or raised exception. -/
abbrev Call (α : Type) := Except String α

/-- Whether a call returned normally. -/
def Call.okB : Call α → Bool
  | .ok _ => true
  | .error _ => false

/-- Whether a call raised. -/
def Call.errB : Call α → Bool
  | .ok _ => false
  | .error _ => true

/-! ## Local-browser variant: src/app.py -/

/-- wait_for_page_load_simple (src/app.py lines 39-54): returns False when the
tab reports closed or the check raises (caught), True after the sleep. The
argument is the outcome of the tab.is_closed() probe inside this call. -/
def wait_for_page_load_simple (closed : Call Bool) : Bool :=
  match closed with
  | .error _ => false
  | .ok true => false
  | .ok false => true

/-- wait_for_page_load (src/app.py lines 57-213): returns False when the tab
reports closed, when the is_closed probe raises, or when the big JavaScript
network-idle evaluation raises (every branch of the except handler returns
False); returns True when the evaluation completes. -/
def wait_for_page_load (closed : Call Bool) (evalJs : Call Unit) : Bool :=
  match closed with
  | .error _ => false
  | .ok true => false
  | .ok false =>
    match evalJs with
    | .error _ => false
    | .ok _ => true

/-- Per-request external-world outcomes consumed by the local fetch handler
extract (src/app.py lines 219-259), in program order: browser.get, the
is_closed probe and JS evaluation inside wait_for_page_load, the is_closed
probe inside wait_for_page_load_simple, the is_closed check before
extraction (line 241), the two tab.evaluate calls, and tab.close in the
finally block. -/
structure FetchEnv where
  getTab : Call Unit
  closedA : Call Bool
  evalJs : Call Unit
  closedB : Call Bool
  closedC : Call Bool
  evalHref : Call String
  evalHtml : Call String
  closeTab : Call Unit
deriving DecidableEq

/-- The JSON bodies the local fetch handler can return, plus an unreachable
marker fault for an exception escaping the handler (the catch-all except at
src/app.py lines 250-252 makes it unreachable; the theorems prove that). -/
inductive FetchResult where
  | success (status : Nat) (url : String) (html : String)
  | errorTabClosed
  | errorExn (e : String)
  | fault
deriving DecidableEq

/-- Result value of extract (src/app.py lines 219-252), as a function of the
calls whose outcome the returned body depends on: browser.get, the pre-
extraction is_closed check, and the two tab.evaluate calls. The two
page-load waits route only printing and sleeping (lines 229-238), and the
close in the finally block has its own caught handler, so neither can change
the body. -/
def extractResult (getTab : Call Unit) (closedC : Call Bool)
    (evalHref evalHtml : Call String) : FetchResult :=
  match getTab with
  | .error e => .errorExn e
  | .ok _ =>
    match closedC with
    | .error e => .errorExn e
    | .ok true => .errorTabClosed
    | .ok false =>
      match evalHref with
      | .error e => .errorExn e
      | .ok u =>
        match evalHtml with
        | .error e => .errorExn e
        | .ok h => .success 200 u h

/-- Observable outcome of one run of a local handler: the response body,
whether a tab was opened (browser.get returned), whether the finally block
attempted tab.close, whether the handler went through the branch where both
page-load waits failed (line 236), whether the action step (evaluate or
save_screenshot) was attempted, and whether the close itself raised
(caught and logged at lines 256-259). -/
structure FetchOutcome where
  result : FetchResult
  tabOpened : Bool
  closeAttempted : Bool
  degradedPath : Bool
  acted : Bool
  closeFailed : Bool
deriving DecidableEq

/-- The local fetch handler extract (src/app.py lines 219-259): body in the
try, catch-all except returning an error object, finally closing the tab
when one was opened, with a close failure caught and only logged. -/
def extract (env : FetchEnv) : FetchOutcome :=
  { result := extractResult env.getTab env.closedC env.evalHref env.evalHtml
    tabOpened := env.getTab.okB
    closeAttempted := env.getTab.okB
    degradedPath := env.getTab.okB &&
      !(wait_for_page_load env.closedA env.evalJs || wait_for_page_load_simple env.closedB)
    acted := env.getTab.okB &&
      (match env.closedC with | .ok false => true | _ => false)
    closeFailed := env.getTab.okB && env.closeTab.errB }

/-- Per-request external outcomes for the local screenshot handler
(src/app.py lines 262-302): same shape as FetchEnv with the action step
being tab.save_screenshot; fileName is the uuid-derived name computed at
line 287 (external nondeterminism passed in). -/
structure ShotEnv where
  getTab : Call Unit
  closedA : Call Bool
  evalJs : Call Unit
  closedB : Call Bool
  closedC : Call Bool
  saveShot : Call Unit
  fileName : String
  closeTab : Call Unit
deriving DecidableEq

/-- Response bodies of the local screenshot handler, with the unreachable
escaped-exception marker faultS. -/
inductive ShotLResult where
  | saved (path : String)
  | errorTabClosedS
  | errorExnS (e : String)
  | faultS
deriving DecidableEq

/-- Result value of screenshot (src/app.py lines 262-295), as a function of
the calls its body depends on. -/
def screenshotResult (getTab : Call Unit) (closedC : Call Bool)
    (saveShot : Call Unit) (fileName : String) : ShotLResult :=
  match getTab with
  | .error e => .errorExnS e
  | .ok _ =>
    match closedC with
    | .error e => .errorExnS e
    | .ok true => .errorTabClosedS
    | .ok false =>
      match saveShot with
      | .error e => .errorExnS e
      | .ok _ => .saved fileName

/-- Observable outcome of the local screenshot handler. -/
structure ShotOutcome where
  result : ShotLResult
  tabOpened : Bool
  closeAttempted : Bool
  degradedPath : Bool
  acted : Bool
  closeFailed : Bool
deriving DecidableEq

/-- The local screenshot handler (src/app.py lines 262-302): same
try, catch-all except, finally-close-with-caught-failure structure as
extract. -/
def screenshotL (env : ShotEnv) : ShotOutcome :=
  { result := screenshotResult env.getTab env.closedC env.saveShot env.fileName
    tabOpened := env.getTab.okB
    closeAttempted := env.getTab.okB
    degradedPath := env.getTab.okB &&
      !(wait_for_page_load env.closedA env.evalJs || wait_for_page_load_simple env.closedB)
    acted := env.getTab.okB &&
      (match env.closedC with | .ok false => true | _ => false)
    closeFailed := env.getTab.okB && env.closeTab.errB }

/-- A whole inbound request in the local variant: per-attempt external
outcomes indexed by attempt number. The handler body of src/app.py contains
no loop and no retry construct, so it consults only attempt 0. -/
def extractJob (envs : Nat → FetchEnv) : FetchOutcome := extract (envs 0)

/-- Screenshot counterpart of extractJob: one attempt, no retry. -/
def screenshotJob (envs : Nat → ShotEnv) : ShotOutcome := screenshotL (envs 0)

/-! ## Remote-worker variant: src/server/app.py -/

/-- A worker channel is identified by an opaque token (the websocket object);
whether a send to it succeeds is supplied by the environment. -/
abbrev Client := Nat

/-- A worker message as parsed by the receive loop when json.loads yields an
object: the optional request_id field and, for the fetch endpoint, the
optional results field, whose content is passed through verbatim by
extract_data (src/server/app.py line 241) and is therefore opaque here. -/
structure WireMsg where
  requestId : Option String
  results : Option String
deriving DecidableEq

/-- Shared broker state (src/server/app.py lines 22-23): the worker channel
registry client_list and the correlation table response_queues mapping a
request_id to its queue of delivered messages, with payload type mu. -/
structure BrokerSt (mu : Type) where
  clients : List Client
  queues : List (String × List mu)
deriving DecidableEq

/-- Lookup of the queue registered under rid (dict access / membership test
on response_queues). -/
def lookupQ (rid : String) (qs : List (String × List mu)) : Option (List mu) :=
  (qs.find? (fun p => p.1 == rid)).map (fun p => p.2)

/-- Deletion of the correlation entry for rid (del response_queues⟦rid⟧). -/
def removeQ (rid : String) (qs : List (String × List mu)) : List (String × List mu) :=
  qs.filter (fun p => p.1 != rid)

/-- queue.put of a delivered message onto the queue registered under rid. -/
def putQ (rid : String) (m : mu) (qs : List (String × List mu)) :
    List (String × List mu) :=
  qs.map (fun p => if p.1 == rid then (p.1, p.2 ++ [m]) else p)

/-- The fan-out loop shared by both broker endpoints (src/server/app.py
lines 118-128 and 212-221): iterate over a point-in-time copy of client_list,
attempt a send to each channel, count successes, and remove a channel from
the live registry when its send raises. Arguments: the copy still to be
walked and the current live registry. Returns the list of channels a send
was attempted to, the number of successful sends, and the final registry. -/
def fanout (sendOk : Client → Bool) :
    List Client → List Client → List Client × Nat × List Client
  | [], live => ([], 0, live)
  | c :: rest, live =>
    if sendOk c then
      let r := fanout sendOk rest live
      (c :: r.1, r.2.1 + 1, r.2.2)
    else
      let r := fanout sendOk rest (live.erase c)
      (c :: r.1, r.2.1, r.2.2)

/-- Outcome of one run of the broker fetch endpoint extract_data
(src/server/app.py lines 199-250): the structured 500 / 504 / success
responses, or raised for an exception that escapes the handler
(only queue.Empty is caught at line 243, so a KeyError from
parsed_data⟦"results"⟧ at line 241 propagates). -/
inductive DResult where
  | noClient
  | timedOut
  | okResults (results : String)
  | raised (e : String)
deriving DecidableEq

/-- The broker fetch endpoint extract_data (src/server/app.py lines 199-250):
register a fresh queue under rid, fan out over the channel registry, return
the No-client error at zero successful sends (removing the entry first),
otherwise wait on the queue; reply models what queue.get delivers within the
300 s budget (none is queue.Empty). The finally block removes the
correlation entry on every path through the try. -/
def extract_data (st : BrokerSt WireMsg) (sendOk : Client → Bool) (rid : String)
    (reply : Option WireMsg) : DResult × BrokerSt WireMsg :=
  let qs1 := (rid, ([] : List WireMsg)) :: st.queues
  let f := fanout sendOk st.clients st.clients
  if f.2.1 = 0 then
    (.noClient, ⟨f.2.2, removeQ rid qs1⟩)
  else
    match reply with
    | none => (.timedOut, ⟨f.2.2, removeQ rid qs1⟩)
    | some m =>
      match m.results with
      | some r => (.okResults r, ⟨f.2.2, removeQ rid qs1⟩)
      | none => (.raised "KeyError: results", ⟨f.2.2, removeQ rid qs1⟩)

/-! ### Screenshot endpoint and image processing -/

/-- Abstract handle for a PIL image. -/
abbrev Img := Nat

/-- One entry of the segments list of a worker screenshot result; x and y are
read with .get defaulting to 0 (src/server/app.py lines 79-85). -/
structure ShotSegment where
  x : Option Nat
  y : Option Nat
deriving DecidableEq

/-- The dimensions object of a worker screenshot result; width and height are
read with .get defaulting to 0 (lines 63-64). -/
structure ShotDims where
  w : Option Nat
  h : Option Nat
deriving DecidableEq

/-- One element of the results list of a worker screenshot reply
(src/server/app.py lines 148-173): optional url and error fields (read by
direct subscripting, so their absence raises), the data-URL strings of the
screenshot segments (an absent or empty list is falsy at line 49), the
segment positions and the overall dimensions. -/
structure ShotEntry where
  url : Option String
  err : Option String
  screenshots : List String
  segments : List ShotSegment
  dims : Option ShotDims
deriving DecidableEq

/-- A worker reply to the screenshot endpoint: the optional results list
(absent results raises KeyError at line 148). -/
structure CaptureReply where
  results : Option (List ShotEntry)
deriving DecidableEq

/-- External image operations used by capture_screenshot: decodeImg is
base64.b64decode followed by Image.open (none means one of them raised),
newImg is Image.new, pasteImg pastes a segment at a position and returns the
updated canvas, saveOk is whether Image.save succeeds. -/
structure PixEnv where
  decodeImg : String → Option Img
  newImg : Nat → Nat → Img
  pasteImg : Img → Img → Nat × Nat → Img
  saveOk : Img → Bool

/-- The data-URL split screenshots⟦i⟧.split(",")⟦1⟧: a Python IndexError
(none) when the string has no comma. -/
def splitComma1 (s : String) : Option String :=
  match s.splitOn "," with
  | _ :: b :: _ => some b
  | _ => none

/-- Decoding one screenshot segment string: split off the data-URL scheme,
base64-decode and open (src/server/app.py lines 58-60 and 88-90); every
failure is a raised exception. -/
def decodeShot (px : PixEnv) (s : String) : Except String Img :=
  match splitComma1 s with
  | none => .error "IndexError: split"
  | some d =>
    match px.decodeImg d with
    | none => .error "decode failed"
    | some i => .ok i

/-- The stitching loop of process_screenshot (src/server/app.py lines 76-92):
paste segment i at the position read from segments⟦i⟧ (0,0 when segment info
is missing), propagating any decode exception. -/
def stitch (px : PixEnv) (segments : List ShotSegment) :
    Img → Nat → List String → Except String Img
  | canvas, _, [] => .ok canvas
  | canvas, i, s :: rest =>
    let xy : Nat × Nat :=
      match segments.get? i with
      | some seg => (seg.x.getD 0, seg.y.getD 0)
      | none => (0, 0)
    match decodeShot px s with
    | .error e => .error e
    | .ok img => stitch px segments (px.pasteImg canvas img xy) (i + 1) rest

/-- process_screenshot (src/server/app.py lines 47-94): none for a falsy
screenshots list; a single segment is decoded directly; with missing or zero
full dimensions the first segment is the fallback; otherwise the segments
are stitched onto a fresh canvas. Exceptions propagate to the caller. -/
def process_screenshot (px : PixEnv) (r : ShotEntry) : Except String (Option Img) :=
  match r.screenshots with
  | [] => .ok none
  | s :: rest =>
    if rest.isEmpty then (decodeShot px s).map some
    else
      let fullW := (r.dims.map (fun d => d.w.getD 0)).getD 0
      let fullH := (r.dims.map (fun d => d.h.getD 0)).getD 0
      if fullW = 0 || fullH = 0 then (decodeShot px s).map some
      else (stitch px r.segments (px.newImg fullW fullH) 0 (s :: rest)).map some

/-- One entry of the structured screenshot response (src/server/app.py lines
148-173). The generated filename and path strings (timestamp plus uuid,
external nondeterminism) are abstracted away; the url and dimensions carried
in the response are kept. -/
inductive CEntryOut where
  | errEntry (url : String) (msg : String)
  | fileEntry (url : String) (dims : ShotDims)
  | processFailed (url : String)
deriving DecidableEq

/-- The body of the per-result loop of capture_screenshot (lines 148-173):
an error result echoes url and error (raising KeyError when url is absent);
otherwise the screenshot is processed, saved (a save failure raises), and
the success entry reads url and dimensions by direct subscripting (raising
when either is absent); a none from process_screenshot yields the
Failed-to-process entry. -/
def entryStep (px : PixEnv) (r : ShotEntry) : Except String CEntryOut :=
  match r.err with
  | some msg =>
    match r.url with
    | none => .error "KeyError: url"
    | some u => .ok (.errEntry u msg)
  | none =>
    match process_screenshot px r with
    | .error e => .error e
    | .ok none =>
      match r.url with
      | none => .error "KeyError: url"
      | some u => .ok (.processFailed u)
    | .ok (some img) =>
      if px.saveOk img then
        match r.url with
        | none => .error "KeyError: url"
        | some u =>
          match r.dims with
          | none => .error "KeyError: dimensions"
          | some d => .ok (.fileEntry u d)
      else .error "OSError: save"

/-- The loop over parsed_data⟦"results"⟧ in capture_screenshot: the first
raised exception aborts the loop and propagates. -/
def processResults (px : PixEnv) : List ShotEntry → Except String (List CEntryOut)
  | [] => .ok []
  | r :: rest =>
    match entryStep px r with
    | .error e => .error e
    | .ok o => (processResults px rest).map (fun os => o :: os)

/-- Outcome of one run of the broker screenshot endpoint (src/server/app.py
lines 97-184): the structured 400 / 500 / 504 / success responses, or raised
for an exception escaping the handler (only queue.Empty is caught). -/
inductive CResult where
  | badRequest
  | noClient
  | timedOut
  | okShots (results : List CEntryOut)
  | raised (e : String)
deriving DecidableEq

/-- The broker screenshot endpoint capture_screenshot (src/server/app.py
lines 97-184): reject a falsy url list with the 400 error before touching
the correlation table; otherwise register a queue, fan out, return the
No-client error at zero successful sends (entry removed first), wait on the
queue (reply models what queue.get delivers within the 300 s budget, none
is queue.Empty), process the results, and remove the correlation entry in
the finally block on every path through the try. -/
def capture_screenshot (px : PixEnv) (st : BrokerSt CaptureReply)
    (sendOk : Client → Bool) (rid : String) (urls : List String)
    (reply : Option CaptureReply) : CResult × BrokerSt CaptureReply :=
  if urls.isEmpty then (.badRequest, st)
  else
    let qs1 := (rid, ([] : List CaptureReply)) :: st.queues
    let f := fanout sendOk st.clients st.clients
    if f.2.1 = 0 then
      (.noClient, ⟨f.2.2, removeQ rid qs1⟩)
    else
      match reply with
      | none => (.timedOut, ⟨f.2.2, removeQ rid qs1⟩)
      | some m =>
        match m.results with
        | none => (.raised "KeyError: results", ⟨f.2.2, removeQ rid qs1⟩)
        | some rs =>
          match processResults px rs with
          | .error e => (.raised e, ⟨f.2.2, removeQ rid qs1⟩)
          | .ok outs => (.okShots outs, ⟨f.2.2, removeQ rid qs1⟩)

/-! ### Websocket receive loop -/

/-- One inbound frame on a worker channel as seen by the receive loop echo
(src/server/app.py lines 27-44): either a frame whose json.loads or
request_id membership test raises (not a JSON object), or a parsed message.
A frame is classified malformed exactly when processing it enters the
except handler at line 40. -/
inductive WsIn where
  | malformed
  | msg (m : WireMsg)
deriving DecidableEq

/-- The request_id a frame carries, when it parses to an object that has
one. -/
def carriesJobId : WsIn → Option String
  | .malformed => none
  | .msg m => m.requestId

/-- What the receive loop did with one frame: handed the payload to the
queue registered under rid, ignored it leaving all state untouched, or hit
the except handler, which removes the channel from client_list and breaks
the loop. -/
inductive EchoOut where
  | delivered (rid : String)
  | droppedSilently
  | errorDisconnect
deriving DecidableEq

/-- One iteration of the receive loop echo (src/server/app.py lines 30-44)
on channel c: a malformed frame enters the except handler (channel removed,
loop ends); a parsed message with a request_id registered in the correlation
table is put on that queue; everything else is ignored without any state
change. -/
def echoStep (st : BrokerSt WireMsg) (c : Client) (w : WsIn) :
    EchoOut × BrokerSt WireMsg :=
  match w with
  | .malformed => (.errorDisconnect, ⟨st.clients.erase c, st.queues⟩)
  | .msg m =>
    match m.requestId with
    | none => (.droppedSilently, st)
    | some rid =>
      if (lookupQ rid st.queues).isSome then
        (.delivered rid, ⟨st.clients, putQ rid m st.queues⟩)
      else (.droppedSilently, st)

/-! ## Concurrency model of the local variant

The handler bodies of src/app.py (lines 219-259 and 262-302) contain no
semaphore, lock or pool: each request opens a tab on the single shared
browser started in lifespan (lines 29-36) and closes it in the finally
block. A concurrent execution of n requests is therefore any interleaving
of the per-request open-tab / close-tab event pairs: there is no
synchronization construct in the handler that could exclude an
interleaving. -/

/-- One scheduler-visible event of a request: job j opened its tab
(browser.get returned) or closed it (the finally block ran). -/
inductive JEv where
  | openT (j : Nat)
  | closeT (j : Nat)
deriving DecidableEq

/-- The job an event belongs to. -/
def JEv.jobId : JEv → Nat
  | .openT j => j
  | .closeT j => j

/-- The event sequence of one request in program order: open the tab, later
close it. No permit-acquire or permit-release event exists in the handler. -/
def jobProg (j : Nat) : List JEv := [.openT j, .closeT j]

/-- tr is an admissible concurrent execution of jobs 0..n-1: every event
belongs to one of the n jobs and the subsequence of each job is exactly its
program. Absent any synchronization primitive in the handler, program order
per job is the only constraint the code imposes on interleavings. -/
def validExec (n : Nat) (tr : List JEv) : Prop :=
  (∀ e ∈ tr, e.jobId < n) ∧ ∀ j < n, tr.filter (fun e => e.jobId == j) = jobProg j

instance (n : Nat) (tr : List JEv) : Decidable (validExec n tr) := by
  unfold validExec; infer_instance

/-- Number of open-tab events in a trace fragment. -/
def openCount (tr : List JEv) : Nat :=
  tr.countP (fun e => match e with | .openT _ => true | .closeT _ => false)

/-- Number of close-tab events in a trace fragment. -/
def closeCount (tr : List JEv) : Nat :=
  tr.countP (fun e => match e with | .openT _ => false | .closeT _ => true)

/-- Jobs holding an open tab on the shared browser after a trace prefix. -/
def activeTabs (tr : List JEv) : Nat := openCount tr - closeCount tr

/-- The prefix in which all n jobs open their tab before any closes. -/
def openAll (n : Nat) : List JEv := (List.range n).map JEv.openT

/-- The matching suffix closing all n tabs. -/
def closeAll (n : Nat) : List JEv := (List.range n).map JEv.closeT

/-- The fetch environment with the readiness steps replaced by succeeding
ones; every other interaction of the run is unchanged. -/
def withReadinessOk (env : FetchEnv) : FetchEnv :=
  { env with closedA := .ok false, evalJs := .ok (), closedB := .ok false }

/-! ## Concrete environments used by counterexamples and witnesses -/

/-- A run in which navigation, readiness, extraction and close all
succeed. -/
def envClean : FetchEnv :=
  ⟨.ok (), .ok false, .ok (), .ok false, .ok false, .ok "https://x", .ok "<html>", .ok ()⟩

/-- A run in which the complex page-load wait raises and the simple
fallback also fails (its is_closed probe raises), yet the tab is still open
at the pre-extraction check and extraction succeeds. -/
def envDeg : FetchEnv :=
  ⟨.ok (), .ok false, .error "ctx destroyed", .error "probe failed", .ok false,
    .ok "https://x", .ok "<html>", .ok ()⟩

/-- A clean run whose tab close raises (caught at src/app.py lines 256-259). -/
def envCloseFail : FetchEnv := { envClean with closeTab := .error "close failed" }

/-- A clean local screenshot run whose tab close raises. -/
def senvCloseFail : ShotEnv :=
  ⟨.ok (), .ok false, .ok (), .ok false, .ok false, .ok (), "shot_ab.png",
    .error "close failed"⟩

/-- A run failing at browser.get on the first (and only) attempt. -/
def envNavFail : FetchEnv := { envClean with getTab := .error "nav failed" }

/-- Per-attempt outcomes in which attempt 0 fails at navigation and every
later attempt would succeed. -/
def envsRetry : Nat → FetchEnv := fun n => if n = 0 then envNavFail else envClean

/-- A run failing at the action step: the DOM evaluation raises after a
clean navigation with the tab still open. -/
def envActFail : FetchEnv := { envClean with evalHref := .error "eval failed" }

/-- Trivial image operations: every decode succeeds, every save succeeds. -/
def pxTriv : PixEnv := ⟨fun _ => some 0, fun _ _ => 0, fun c _ _ => c, fun _ => true⟩

/-- A worker screenshot result carrying an error field together with its
url. -/
def entryErr : ShotEntry := ⟨some "u", some "boom", [], [], none⟩

/-- A broker state with one connected worker channel and an empty
correlation table. -/
def st1 : BrokerSt WireMsg := ⟨[0], []⟩

/-- Screenshot-endpoint twin of st1. -/
def stc1 : BrokerSt CaptureReply := ⟨[0], []⟩

/-- A broker state with one connected channel and one registered
correlation entry r1. -/
def stEcho : BrokerSt WireMsg := ⟨[7], [("r1", [])]⟩

/-! ## Helper lemmas -/

lemma fanout_attempted (sendOk : Client → Bool) (copy live : List Client) :
    (fanout sendOk copy live).1 = copy := by
  induction copy generalizing live with
  | nil => rfl
  | cons c rest ih =>
    by_cases h : sendOk c <;> simp [fanout, h, ih]

lemma fanout_count (sendOk : Client → Bool) (copy live : List Client) :
    (fanout sendOk copy live).2.1 = copy.countP (fun c => sendOk c) := by
  induction copy generalizing live with
  | nil => rfl
  | cons c rest ih =>
    by_cases h : sendOk c <;> simp [fanout, h, ih, List.countP_cons]

lemma fanout_live (sendOk : Client → Bool) (rest pre : List Client)
    (hpre : ∀ a ∈ pre, sendOk a = true) :
    (fanout sendOk rest (pre ++ rest)).2.2 = pre ++ rest.filter (fun c => sendOk c) := by
  induction rest generalizing pre with
  | nil => simp [fanout]
  | cons c tl ih =>
    by_cases h : sendOk c
    · have hsplit : pre ++ c :: tl = (pre ++ [c]) ++ tl := by simp
      have hpre2 : ∀ a ∈ pre ++ [c], sendOk a = true := by
        intro a ha
        rcases List.mem_append.mp ha with ha | ha
        · exact hpre a ha
        · simp at ha; subst ha; exact h
      simp only [fanout, h, if_pos]
      rw [hsplit, ih (pre ++ [c]) hpre2]
      simp [h]
    · have hnotin : c ∉ pre := by
        intro hc
        exact h (hpre c hc)
      have herase : (pre ++ c :: tl).erase c = pre ++ tl := by
        rw [List.erase_append_right _ hnotin, List.erase_cons_head]
      simp only [fanout, h, if_neg, Bool.false_eq_true, not_false_iff]
      rw [herase, ih pre hpre]
      simp [h]

lemma fanout_registry (sendOk : Client → Bool) (l : List Client) :
    (fanout sendOk l l).2.2 = l.filter (fun c => sendOk c) :=
  fanout_live sendOk l [] (by simp)

lemma lookupQ_removeQ (rid : String) (qs : List (String × List mu)) :
    lookupQ rid (removeQ rid qs) = none := by
  unfold lookupQ removeQ
  have hfind : List.find? (fun p => p.1 == rid) (List.filter (fun p => p.1 != rid) qs)
      = none := by
    rw [List.find?_eq_none]
    intro x hx
    have hm := (List.mem_filter.mp hx).2
    simp only [bne_iff_ne, ne_eq] at hm
    simp [hm]
  rw [hfind]
  rfl

lemma processResults_isOk (px : PixEnv) (rs : List ShotEntry)
    (h : ∀ r ∈ rs, Call.okB (entryStep px r) = true) :
    ∃ outs, processResults px rs = .ok outs := by
  induction rs with
  | nil => exact ⟨[], rfl⟩
  | cons r rest ih =>
    have hr := h r (by simp)
    cases hstep : entryStep px r with
    | error e => rw [hstep] at hr; simp [Call.okB] at hr
    | ok o =>
      obtain ⟨outs, ho⟩ := ih (fun x hx => h x (by simp [hx]))
      exact ⟨o :: outs, by simp [processResults, hstep, ho, Except.map]⟩

lemma range_filter_beq (j n : Nat) (hj : j < n) :
    (List.range n).filter (fun i => i == j) = [j] := by
  induction n with
  | zero => exact absurd hj (Nat.not_lt_zero j)
  | succ n ih =>
    rw [List.range_succ, List.filter_append]
    rcases Nat.lt_succ_iff_lt_or_eq.mp hj with h | h
    · rw [ih h]
      have : (n == j) = false := by
        simp only [beq_eq_false_iff_ne, ne_eq]
        omega
      simp [this]
    · subst h
      have h1 : (List.range j).filter (fun i => i == j) = [] := by
        rw [List.filter_eq_nil_iff]
        intro a ha
        have := List.mem_range.mp ha
        simp only [beq_iff_eq]
        omega
      simp [h1]

lemma filter_openAll (n j : Nat) (hj : j < n) :
    (openAll n).filter (fun e => JEv.jobId e == j) = [JEv.openT j] := by
  unfold openAll
  rw [List.filter_map]
  have hp : ((fun e => JEv.jobId e == j) ∘ JEv.openT) = fun i : Nat => i == j := rfl
  rw [hp, range_filter_beq j n hj]
  rfl

lemma filter_closeAll (n j : Nat) (hj : j < n) :
    (closeAll n).filter (fun e => JEv.jobId e == j) = [JEv.closeT j] := by
  unfold closeAll
  rw [List.filter_map]
  have hp : ((fun e => JEv.jobId e == j) ∘ JEv.closeT) = fun i : Nat => i == j := rfl
  rw [hp, range_filter_beq j n hj]
  rfl

lemma openCount_openAll (n : Nat) : openCount (openAll n) = n := by
  unfold openCount openAll
  rw [List.countP_map]
  have hp : ((fun e => match e with | JEv.openT _ => true | JEv.closeT _ => false)
      ∘ JEv.openT) = fun _ : Nat => true := rfl
  rw [hp]
  simp

lemma closeCount_openAll (n : Nat) : closeCount (openAll n) = 0 := by
  unfold closeCount openAll
  rw [List.countP_map]
  have hp : ((fun e => match e with | JEv.openT _ => false | JEv.closeT _ => true)
      ∘ JEv.openT) = fun _ : Nat => false := rfl
  rw [hp]
  simp

/-! ## Claim theorems -/

/-- Claim C1, counterexample: the remote fetch handler extract_data, with one
live worker channel and a worker reply that carries the request_id but no
results key, raises an uncaught KeyError (only queue.Empty is caught at
src/server/app.py line 243), so the caller receives an unhandled fault
instead of a structured error object. -/
theorem C1_counterexample :
    (extract_data st1 (fun _ => true) "job-1" (some ⟨some "job-1", none⟩)).1
      = DResult.raised "KeyError: results" := by decide

/-- Claim C1 as amended: the local-variant handlers terminate in a
structured payload on every path (no exception escapes the catch-all
handlers); the remote fetch handler raises exactly when at least one send
succeeded and the worker reply lacks the results key; the remote
screenshot handler returns a structured response whenever the worker reply
is well formed (results present and every result entry processes without
raising), and it raises an unhandled fault exactly when the url list is
nonempty, at least one send succeeded, and the reply either lacks the
results key or contains a result entry whose processing raises. -/
theorem C1_structured_results :
    (∀ env : FetchEnv, (extract env).result ≠ FetchResult.fault) ∧
    (∀ env : ShotEnv, (screenshotL env).result ≠ ShotLResult.faultS) ∧
    (∀ (st : BrokerSt WireMsg) (sendOk : Client → Bool) (rid : String)
        (reply : Option WireMsg),
        (∃ e, (extract_data st sendOk rid reply).1 = DResult.raised e) ↔
          (0 < st.clients.countP (fun c => sendOk c) ∧
            ∃ m, reply = some m ∧ m.results = none)) ∧
    (∀ (px : PixEnv) (stc : BrokerSt CaptureReply) (sendOk : Client → Bool)
        (rid : String) (urls : List String) (reply : Option CaptureReply),
        (∀ m, reply = some m → ∃ rs, m.results = some rs ∧
            ∀ r ∈ rs, Call.okB (entryStep px r) = true) →
        ∀ e, (capture_screenshot px stc sendOk rid urls reply).1 ≠ CResult.raised e) ∧
    (∀ (px : PixEnv) (stc : BrokerSt CaptureReply) (sendOk : Client → Bool)
        (rid : String) (urls : List String) (reply : Option CaptureReply),
        (∃ e, (capture_screenshot px stc sendOk rid urls reply).1 = CResult.raised e) ↔
          (urls ≠ [] ∧ 0 < stc.clients.countP (fun c => sendOk c) ∧
            ∃ m, reply = some m ∧
              (m.results = none ∨
                ∃ rs, m.results = some rs ∧
                  Call.errB (processResults px rs) = true))) := by
  refine ⟨?_, ?_, ?_, ?_, ?_⟩
  · intro env
    rcases env with ⟨g, a, j, b, c3, hr, ht, ct⟩
    cases g with
    | error e => simp [extract, extractResult]
    | ok u =>
      cases c3 with
      | error e => simp [extract, extractResult]
      | ok bb =>
        cases bb with
        | true => simp [extract, extractResult]
        | false =>
          cases hr with
          | error e => simp [extract, extractResult]
          | ok uu => cases ht <;> simp [extract, extractResult]
  · intro env
    rcases env with ⟨g, a, j, b, c3, sv, fn, ct⟩
    cases g with
    | error e => simp [screenshotL, screenshotResult]
    | ok u =>
      cases c3 with
      | error e => simp [screenshotL, screenshotResult]
      | ok bb =>
        cases bb with
        | true => simp [screenshotL, screenshotResult]
        | false => cases sv <;> simp [screenshotL, screenshotResult]
  · intro st sendOk rid reply
    by_cases h0 : st.clients.countP (fun c => sendOk c) = 0
    · have hz : (fanout sendOk st.clients st.clients).2.1 = 0 := by
        rw [fanout_count]; exact h0
      simp [extract_data, hz, h0]
    · have hz : ¬ (fanout sendOk st.clients st.clients).2.1 = 0 := by
        rw [fanout_count]; exact h0
      have hpos : 0 < st.clients.countP (fun c => sendOk c) := Nat.pos_of_ne_zero h0
      cases reply with
      | none => simp [extract_data, hz]
      | some m =>
        cases hm : m.results with
        | some r => simp [extract_data, hz, hm]
        | none => simp [extract_data, hz, hm, hpos]
  · intro px stc sendOk rid urls reply hwf e
    by_cases hu : urls.isEmpty
    · simp [capture_screenshot, hu]
    · by_cases h0 : (fanout sendOk stc.clients stc.clients).2.1 = 0
      · simp [capture_screenshot, hu, h0]
      · cases reply with
        | none => simp [capture_screenshot, hu, h0]
        | some m =>
          obtain ⟨rs, hrs, hok⟩ := hwf m rfl
          obtain ⟨outs, ho⟩ := processResults_isOk px rs hok
          simp [capture_screenshot, hu, h0, hrs, ho]
  · intro px stc sendOk rid urls reply
    by_cases hu : urls = []
    · subst hu
      simp [capture_screenshot]
    · have hue : urls.isEmpty = false := by
        cases urls with
        | nil => exact absurd rfl hu
        | cons a l => rfl
      by_cases h0 : (fanout sendOk stc.clients stc.clients).2.1 = 0
      · have hc0 : stc.clients.countP (fun c => sendOk c) = 0 := by
          rw [← fanout_count sendOk stc.clients stc.clients]
          exact h0
        simp [capture_screenshot, hue, h0, hc0]
      · have hpos : 0 < stc.clients.countP (fun c => sendOk c) := by
          rw [← fanout_count sendOk stc.clients stc.clients]
          exact Nat.pos_of_ne_zero h0
        cases reply with
        | none => simp [capture_screenshot, hue, h0]
        | some m =>
          cases hm : m.results with
          | none => simp [capture_screenshot, hue, h0, hm, hpos, hu]
          | some rs =>
            cases hp : processResults px rs with
            | error e =>
              simp [capture_screenshot, hue, h0, hm, hp, hpos, hu, Call.errB]
            | ok outs =>
              simp [capture_screenshot, hue, h0, hm, hp, Call.errB]

/-- Claim C1, witness: with a well-formed worker reply (results present, the
single entry carrying url and error), the screenshot handler does not
raise; with a reply lacking the results key, the very same handler does
raise the uncaught KeyError, an unhandled fault. -/
theorem C1_witness :
    ((capture_screenshot pxTriv stc1 (fun _ => true) "j" ["u"]
        (some ⟨some [entryErr]⟩)).1 ≠ CResult.raised "KeyError: results") ∧
    (capture_screenshot pxTriv stc1 (fun _ => true) "j" ["u"]
        (some ⟨none⟩)).1 = CResult.raised "KeyError: results" :=
  ⟨C1_structured_results.2.2.2.1 pxTriv stc1 (fun _ => true) "j" ["u"]
    (some ⟨some [entryErr]⟩)
    (fun m hm => by
      cases hm
      exact ⟨[entryErr], rfl, by decide⟩) "KeyError: results",
   by decide⟩

/-- Claim C2: when at least one send succeeded and no worker reply arrives
within the 300 second wait budget (queue.get raises queue.Empty), both
broker endpoints return the Request-timed-out error, and the finally block
has removed the correlation entry for the request_id by the time the
handler returns. -/
theorem C2_timeout_cleanup (st : BrokerSt WireMsg) (stc : BrokerSt CaptureReply)
    (px : PixEnv) (sendOk : Client → Bool) (rid : String) (urls : List String)
    (h1 : 0 < st.clients.countP (fun c => sendOk c))
    (h2 : 0 < stc.clients.countP (fun c => sendOk c))
    (hu : urls ≠ []) :
    (extract_data st sendOk rid none).1 = DResult.timedOut ∧
    lookupQ rid (extract_data st sendOk rid none).2.queues = none ∧
    (capture_screenshot px stc sendOk rid urls none).1 = CResult.timedOut ∧
    lookupQ rid (capture_screenshot px stc sendOk rid urls none).2.queues = none := by
  have hz1 : ¬ (fanout sendOk st.clients st.clients).2.1 = 0 := by
    rw [fanout_count]; omega
  have hz2 : ¬ (fanout sendOk stc.clients stc.clients).2.1 = 0 := by
    rw [fanout_count]; omega
  have hue : urls.isEmpty = false := by
    cases urls with
    | nil => exact absurd rfl hu
    | cons a l => rfl
  refine ⟨?_, ?_, ?_, ?_⟩ <;>
    simp [extract_data, capture_screenshot, hz1, hz2, hue, lookupQ_removeQ]

/-- Claim C2, witness: one worker, send succeeds, no reply: both endpoints
time out and the correlation entry for the request is gone. -/
theorem C2_witness :
    (extract_data st1 (fun _ => true) "j" none).1 = DResult.timedOut ∧
    lookupQ "j" (extract_data st1 (fun _ => true) "j" none).2.queues = none ∧
    (capture_screenshot pxTriv stc1 (fun _ => true) "j" ["u"] none).1 = CResult.timedOut ∧
    lookupQ "j" (capture_screenshot pxTriv stc1 (fun _ => true) "j" ["u"] none).2.queues
      = none :=
  C2_timeout_cleanup st1 stc1 pxTriv (fun _ => true) "j" ["u"]
    (by decide) (by decide) (by decide)

/-- Claim C3: when zero sends succeed (a dead or empty registry), both
broker endpoints return the No-client-available error whatever reply might
later have arrived — the handler never reaches the queue wait, whose
outcome is therefore irrelevant — and the correlation entry registered for
the job has already been removed when the handler returns. -/
theorem C3_noworker (st : BrokerSt WireMsg) (stc : BrokerSt CaptureReply)
    (px : PixEnv) (sendOk : Client → Bool) (rid : String) (urls : List String)
    (h1 : st.clients.countP (fun c => sendOk c) = 0)
    (h2 : stc.clients.countP (fun c => sendOk c) = 0)
    (hu : urls ≠ []) :
    ∀ (reply : Option WireMsg) (replyC : Option CaptureReply),
      (extract_data st sendOk rid reply).1 = DResult.noClient ∧
      extract_data st sendOk rid reply = extract_data st sendOk rid none ∧
      lookupQ rid (extract_data st sendOk rid reply).2.queues = none ∧
      (capture_screenshot px stc sendOk rid urls replyC).1 = CResult.noClient ∧
      capture_screenshot px stc sendOk rid urls replyC
        = capture_screenshot px stc sendOk rid urls none ∧
      lookupQ rid (capture_screenshot px stc sendOk rid urls replyC).2.queues = none := by
  intro reply replyC
  have hz1 : (fanout sendOk st.clients st.clients).2.1 = 0 := by
    rw [fanout_count]; exact h1
  have hz2 : (fanout sendOk stc.clients stc.clients).2.1 = 0 := by
    rw [fanout_count]; exact h2
  have hue : urls.isEmpty = false := by
    cases urls with
    | nil => exact absurd rfl hu
    | cons a l => rfl
  refine ⟨?_, ?_, ?_, ?_, ?_, ?_⟩ <;>
    simp [extract_data, capture_screenshot, hz1, hz2, hue, lookupQ_removeQ]

/-- Claim C3, witness: one dead worker channel (its send raises), a reply
that would have matched: both endpoints report No client available without
waiting, and the correlation table has no entry for the job. -/
theorem C3_witness :
    (extract_data ⟨[5], []⟩ (fun _ => false) "j" (some ⟨some "j", some "R"⟩)).1
      = DResult.noClient ∧
    lookupQ "j" (extract_data ⟨[5], []⟩ (fun _ => false) "j"
      (some ⟨some "j", some "R"⟩)).2.queues = none := by
  have h := C3_noworker ⟨[5], []⟩ ⟨[5], []⟩ pxTriv (fun _ => false) "j" ["u"]
    (by decide) (by decide) (by decide) (some ⟨some "j", some "R"⟩) none
  exact ⟨h.1, h.2.2.1⟩

/-- Claim C4, counterexample: a frame that does not parse as a JSON object
carries no job_id, yet it is not dropped silently: the receive loop enters
its except handler (src/server/app.py lines 40-44), removes the channel
from the registry and ends, so the broker state changes. -/
theorem C4_counterexample :
    carriesJobId WsIn.malformed = none ∧
    (echoStep stEcho 7 WsIn.malformed).1 = EchoOut.errorDisconnect ∧
    (echoStep stEcho 7 WsIn.malformed).2.clients = [] := by decide

/-- Claim C4 as amended: a frame is delivered to a result queue exactly when
it carries a request_id registered in the correlation table; a parsed
message that is not delivered is dropped silently with the whole broker
state unchanged; a delivered message is appended to the matching queue and
leaves the registry unchanged; but a frame that fails to parse ends the
receive loop and removes the worker channel from the registry. -/
theorem C4_receive_path (st : BrokerSt WireMsg) (c : Client) (w : WsIn) :
    (∀ rid, (echoStep st c w).1 = EchoOut.delivered rid ↔
      (carriesJobId w = some rid ∧ (lookupQ rid st.queues).isSome = true)) ∧
    (∀ m, w = WsIn.msg m → (echoStep st c w).1 = EchoOut.droppedSilently →
      (echoStep st c w).2 = st) ∧
    (∀ m rid, w = WsIn.msg m → (echoStep st c w).1 = EchoOut.delivered rid →
      (echoStep st c w).2.queues = putQ rid m st.queues ∧
      (echoStep st c w).2.clients = st.clients) ∧
    (w = WsIn.malformed →
      (echoStep st c w).1 = EchoOut.errorDisconnect ∧
      (echoStep st c w).2 = ⟨st.clients.erase c, st.queues⟩) := by
  refine ⟨?_, ?_, ?_, ?_⟩
  · intro rid
    cases w with
    | malformed => simp [echoStep, carriesJobId]
    | msg m =>
      cases hm : m.requestId with
      | none => simp [echoStep, carriesJobId, hm]
      | some r =>
        by_cases hq : (lookupQ r st.queues).isSome = true
        · constructor
          · intro h
            have h1 : EchoOut.delivered r = EchoOut.delivered rid := by
              rw [← h]; simp [echoStep, hm, hq]
            injection h1 with hr
            subst hr
            exact ⟨by simp [carriesJobId, hm], hq⟩
          · rintro ⟨h1, h2⟩
            rw [carriesJobId] at h1
            rw [hm] at h1
            injection h1 with hr
            subst hr
            simp [echoStep, hm, hq]
        · constructor
          · intro h
            have h1 : EchoOut.droppedSilently = EchoOut.delivered rid := by
              rw [← h]; simp [echoStep, hm, hq]
            exact absurd h1 (by simp)
          · rintro ⟨h1, h2⟩
            rw [carriesJobId] at h1
            rw [hm] at h1
            injection h1 with hr
            subst hr
            exact absurd h2 hq
  · intro m hw hout
    subst hw
    cases hm : m.requestId with
    | none => simp [echoStep, hm]
    | some r =>
      by_cases hq : (lookupQ r st.queues).isSome = true
      · rw [show (echoStep st c (WsIn.msg m)).1 = EchoOut.delivered r by
          simp [echoStep, hm, hq]] at hout
        exact absurd hout (by simp)
      · simp [echoStep, hm, hq]
  · intro m rid hw hout
    subst hw
    cases hm : m.requestId with
    | none =>
      rw [show (echoStep st c (WsIn.msg m)).1 = EchoOut.droppedSilently by
        simp [echoStep, hm]] at hout
      exact absurd hout (by simp)
    | some r =>
      by_cases hq : (lookupQ r st.queues).isSome = true
      · have h1 : EchoOut.delivered r = EchoOut.delivered rid := by
          rw [← hout]; simp [echoStep, hm, hq]
        injection h1 with hr
        subst hr
        constructor <;> simp [echoStep, hm, hq]
      · rw [show (echoStep st c (WsIn.msg m)).1 = EchoOut.droppedSilently by
          simp [echoStep, hm, hq]] at hout
        exact absurd hout (by simp)
  · intro hw
    subst hw
    exact ⟨rfl, rfl⟩

/-- Claim C4, witness: a parsed message whose request_id is registered is
delivered to that queue. -/
theorem C4_witness :
    (echoStep stEcho 7 (WsIn.msg ⟨some "r1", some "R"⟩)).1 = EchoOut.delivered "r1" :=
  ((C4_receive_path stEcho 7 (WsIn.msg ⟨some "r1", some "R"⟩)).1 "r1").mpr
    ⟨rfl, by decide⟩

/-- Claim C5: fan-out walks a point-in-time copy of the worker registry — the
list of channels a send is attempted to is exactly the registry at dispatch
time, unaffected by removals during the walk; channels whose send raised are
removed from the registry while the others are kept; and at least one
successful send is sufficient for dispatch to proceed to the result wait
(the outcome is then decided by the wait, never No-client-available). -/
theorem C5_fanout_snapshot (st : BrokerSt WireMsg) (sendOk : Client → Bool)
    (rid : String) :
    (fanout sendOk st.clients st.clients).1 = st.clients ∧
    (fanout sendOk st.clients st.clients).2.1
      = st.clients.countP (fun c => sendOk c) ∧
    (fanout sendOk st.clients st.clients).2.2
      = st.clients.filter (fun c => sendOk c) ∧
    (extract_data st sendOk rid none).2.clients
      = st.clients.filter (fun c => sendOk c) ∧
    (0 < st.clients.countP (fun c => sendOk c) →
      (extract_data st sendOk rid none).1 = DResult.timedOut ∧
      ∀ m : WireMsg, (extract_data st sendOk rid (some m)).1 ≠ DResult.noClient) := by
  refine ⟨fanout_attempted sendOk st.clients st.clients,
    fanout_count sendOk st.clients st.clients,
    fanout_registry sendOk st.clients, ?_, ?_⟩
  · by_cases h0 : (fanout sendOk st.clients st.clients).2.1 = 0 <;>
      simp [extract_data, h0, fanout_registry]
  · intro hpos
    have hz : ¬ (fanout sendOk st.clients st.clients).2.1 = 0 := by
      rw [fanout_count]; omega
    constructor
    · simp [extract_data, hz]
    · intro m
      cases hm : m.results with
      | none => simp [extract_data, hz, hm]
      | some r => simp [extract_data, hz, hm]

/-- Claim C5, witness: registry of two channels, the send to channel 1
raises: both are attempted, channel 1 is removed, channel 0 is kept, and
dispatch proceeds to the wait. -/
theorem C5_witness :
    (fanout (fun c : Client => c == 0) [0, 1] [0, 1]).1 = [0, 1] ∧
    (fanout (fun c : Client => c == 0) [0, 1] [0, 1]).2.2 = [0] ∧
    (extract_data ⟨[0, 1], []⟩ (fun c => c == 0) "j" none).1 = DResult.timedOut ∧
    (extract_data ⟨[0, 1], []⟩ (fun c => c == 0) "j"
      (some ⟨some "j", some "R"⟩)).1 ≠ DResult.noClient := by
  have h := C5_fanout_snapshot ⟨[0, 1], []⟩ (fun c => c == 0) "j"
  have h2 := h.2.2.2.2 (by decide)
  exact ⟨h.1, by simpa using h.2.2.1, h2.1, h2.2 ⟨some "j", some "R"⟩⟩

/-- Claim C6: in the local variant, whenever a run opened a page context
(browser.get returned a tab), the finally block attempts to close it — on
success, on any raised step, and on the early tab-closed error return — and
conversely a close is only attempted when a tab was opened; moreover the
returned body is the same whatever the close call does, since a close
failure is caught and only logged (src/app.py lines 254-259 and 297-302). -/
theorem C6_cleanup (envF : FetchEnv) (envS : ShotEnv) :
    ((extract envF).tabOpened = true → (extract envF).closeAttempted = true) ∧
    ((extract envF).closeAttempted = true → (extract envF).tabOpened = true) ∧
    (∀ cl : Call Unit,
      (extract { envF with closeTab := cl }).result = (extract envF).result) ∧
    ((screenshotL envS).tabOpened = true → (screenshotL envS).closeAttempted = true) ∧
    (∀ cl : Call Unit,
      (screenshotL { envS with closeTab := cl }).result = (screenshotL envS).result) :=
  ⟨fun h => h, fun h => h, fun _ => rfl, fun h => h, fun _ => rfl⟩

/-- Claim C6, witness: a run whose tab close raises still attempts the
close, records the failure, and returns exactly the body of the same run
with a clean close. -/
theorem C6_witness :
    (extract envCloseFail).closeAttempted = true ∧
    (extract envCloseFail).closeFailed = true ∧
    (extract { envCloseFail with closeTab := Except.ok () }).result
      = (extract envCloseFail).result ∧
    (screenshotL senvCloseFail).closeAttempted = true ∧
    (screenshotL { senvCloseFail with closeTab := Except.ok () }).result
      = (screenshotL senvCloseFail).result := by
  have h := C6_cleanup envCloseFail senvCloseFail
  exact ⟨h.1 (by decide), by decide, h.2.2.1 (Except.ok ()),
    h.2.2.2.1 (by decide), h.2.2.2.2 (Except.ok ())⟩

/-- Claim C7, counterexample: a run in which both page-load waits fail still
proceeds to extraction, but the returned body is the plain success payload,
identical to the body of a run whose readiness wait succeeded — no
degraded or partial flag of any kind distinguishes them. -/
theorem C7_counterexample :
    (extract envDeg).degradedPath = true ∧
    (extract envDeg).acted = true ∧
    (extract envDeg).result = FetchResult.success 200 "https://x" "<html>" ∧
    (extract envClean).degradedPath = false ∧
    (extract envDeg).result = (extract envClean).result := by decide

/-- Claim C7 as amended: when both page-load waits fail the handler still
proceeds to the extraction step (provided the tab is still open at the
pre-extraction check), but the success payload is returned unflagged: it is
identical to the payload of the same run with a succeeding readiness wait,
which is not on the degraded path. -/
theorem C7_degraded_not_flagged (env : FetchEnv)
    (h : (extract env).degradedPath = true) :
    (env.closedC = Except.ok false → (extract env).acted = true) ∧
    (extract env).result = (extract (withReadinessOk env)).result ∧
    (extract (withReadinessOk env)).degradedPath = false := by
  have hok : env.getTab.okB = true := by
    have h2 := h
    simp only [extract, Bool.and_eq_true] at h2
    exact h2.1
  refine ⟨?_, rfl, ?_⟩
  · intro hc
    simp [extract, hok, hc]
  · show ((withReadinessOk env).getTab.okB
        && !(wait_for_page_load (Except.ok false) (Except.ok ())
          || wait_for_page_load_simple (Except.ok false))) = false
    simp [wait_for_page_load]

/-- Claim C7, witness: the degraded run envDeg proceeds to extraction and
returns the very same body as its readiness-succeeding twin. -/
theorem C7_witness :
    (extract envDeg).acted = true ∧
    (extract envDeg).result = (extract (withReadinessOk envDeg)).result ∧
    (extract (withReadinessOk envDeg)).degradedPath = false := by
  have h := C7_degraded_not_flagged envDeg (by decide)
  exact ⟨h.1 (by decide), h.2.1, h.2.2⟩

/-- Claim C8, counterexample: attempt 0 fails at navigation while attempt 1
would succeed; the handler nevertheless returns the attempt-0 error to the
caller after a single attempt, although 1 is below the claimed default
max_retries of 2, and no health check or retry exists in the handler. -/
theorem C8_counterexample :
    (extractJob envsRetry).result = FetchResult.errorExn "nav failed" ∧
    (extract (envsRetry 1)).result = FetchResult.success 200 "https://x" "<html>" ∧
    (1 : Nat) < 2 := by decide

/-- Claim C8 as amended: each handler makes exactly one attempt — the job
outcome is the outcome of attempt 0, whatever later attempts would have
produced — and a first-attempt failure at navigation or at the action step
(either DOM evaluation for fetch, the screenshot save for screenshot) is
returned to the caller immediately as a structured error; there is no
ensure_healthy call and no retry anywhere in src/app.py. -/
theorem C8_no_retry (envs : Nat → FetchEnv) (senvs : Nat → ShotEnv) :
    extractJob envs = extract (envs 0) ∧
    screenshotJob senvs = screenshotL (senvs 0) ∧
    (∀ e, (envs 0).getTab = Except.error e →
      (extractJob envs).result = FetchResult.errorExn e) ∧
    (∀ e, (envs 0).getTab = Except.ok () → (envs 0).closedC = Except.ok false →
      (envs 0).evalHref = Except.error e →
      (extractJob envs).result = FetchResult.errorExn e) ∧
    (∀ e u, (envs 0).getTab = Except.ok () → (envs 0).closedC = Except.ok false →
      (envs 0).evalHref = Except.ok u → (envs 0).evalHtml = Except.error e →
      (extractJob envs).result = FetchResult.errorExn e) ∧
    (∀ e, (senvs 0).getTab = Except.error e →
      (screenshotJob senvs).result = ShotLResult.errorExnS e) ∧
    (∀ e, (senvs 0).getTab = Except.ok () → (senvs 0).closedC = Except.ok false →
      (senvs 0).saveShot = Except.error e →
      (screenshotJob senvs).result = ShotLResult.errorExnS e) := by
  have hx : (extractJob envs).result
      = extractResult (envs 0).getTab (envs 0).closedC
        (envs 0).evalHref (envs 0).evalHtml := rfl
  have hs : (screenshotJob senvs).result
      = screenshotResult (senvs 0).getTab (senvs 0).closedC
        (senvs 0).saveShot (senvs 0).fileName := rfl
  refine ⟨rfl, rfl, ?_, ?_, ?_, ?_, ?_⟩
  · intro e he
    rw [hx, he]
    rfl
  · intro e hg hc he
    rw [hx, hg, hc, he]
    rfl
  · intro e u hg hc hu he
    rw [hx, hg, hc, hu, he]
    rfl
  · intro e he
    rw [hs, he]
    rfl
  · intro e hg hc he
    rw [hs, hg, hc, he]
    rfl

/-- Claim C8, witness: a job with a failing first-attempt navigation
returns that failure directly, and so does a job whose action step (DOM
evaluation) fails on its single attempt. -/
theorem C8_witness :
    extractJob envsRetry = extract (envsRetry 0) ∧
    (extractJob envsRetry).result = FetchResult.errorExn "nav failed" ∧
    (extractJob (fun _ => envActFail)).result = FetchResult.errorExn "eval failed" := by
  have h := C8_no_retry envsRetry (fun _ => senvCloseFail)
  have h2 := C8_no_retry (fun _ => envActFail) (fun _ => senvCloseFail)
  exact ⟨h.1, h.2.2.1 "nav failed" (by decide),
    h2.2.2.2.1 "eval failed" (by decide) (by decide) (by decide)⟩

/-- Claim C9, counterexample: the interleaving in which jobs 0 and 1 both
open their tab before either closes is an admissible execution of the
handler code (which contains no permit acquisition), and at its midpoint
two jobs hold open tabs on the single shared browser instance — more than
the one job at a time the claim allows per instance — and neither job ever
blocked waiting for capacity. -/
theorem C9_counterexample :
    validExec 2 [JEv.openT 0, JEv.openT 1, JEv.closeT 0, JEv.closeT 1] ∧
    activeTabs [JEv.openT 0, JEv.openT 1] = 2 ∧ ¬ (2 ≤ 1) := by decide

/-- Claim C9 as amended: the local variant has no pool and no permits; for
every n, the execution in which all n jobs open their tabs on the single
shared browser before any closes is admissible, and at its peak all n jobs
hold open tabs simultaneously, so no bound below n on concurrent browser
use holds and no job blocks. -/
theorem C9_no_pool (n : Nat) :
    validExec n (openAll n ++ closeAll n) ∧ activeTabs (openAll n) = n := by
  constructor
  · constructor
    · intro e he
      rcases List.mem_append.mp he with h | h
      · unfold openAll at h
        obtain ⟨i, hi, rfl⟩ := List.mem_map.mp h
        simpa [JEv.jobId] using List.mem_range.mp hi
      · unfold closeAll at h
        obtain ⟨i, hi, rfl⟩ := List.mem_map.mp h
        simpa [JEv.jobId] using List.mem_range.mp hi
    · intro j hj
      rw [List.filter_append, filter_openAll n j hj, filter_closeAll n j hj]
      rfl
  · rw [activeTabs, openCount_openAll, closeCount_openAll]
    exact Nat.sub_zero n

/-- Claim C10: whenever the local fetch handler returns a success payload,
its status_code is the constant 200 assigned at src/app.py line 245,
independent of any outcome of the navigated page. -/
theorem C10_status_constant (env : FetchEnv) (s : Nat) (u h : String)
    (hs : (extract env).result = FetchResult.success s u h) : s = 200 := by
  have h0 : extractResult env.getTab env.closedC env.evalHref env.evalHtml
      = FetchResult.success s u h := hs
  cases hg : env.getTab with
  | error e => rw [hg] at h0; simp [extractResult] at h0
  | ok uu =>
    cases hc : env.closedC with
    | error e => rw [hg, hc] at h0; simp [extractResult] at h0
    | ok bb =>
      cases bb with
      | true => rw [hg, hc] at h0; simp [extractResult] at h0
      | false =>
        cases hh : env.evalHref with
        | error e => rw [hg, hc, hh] at h0; simp [extractResult] at h0
        | ok u2 =>
          cases hm : env.evalHtml with
          | error e => rw [hg, hc, hh, hm] at h0; simp [extractResult] at h0
          | ok h2 =>
            rw [hg, hc, hh, hm] at h0
            simp [extractResult] at h0
            omega

/-- Claim C10, witness: a fully succeeding run reports status_code 200. -/
theorem C10_witness :
    (extract envClean).result = FetchResult.success 200 "https://x" "<html>" ∧
    (200 : Nat) = 200 :=
  ⟨by decide, C10_status_constant envClean 200 "https://x" "<html>" (by decide)⟩

end PSpy
